import Mathlib

/-!
Shallow embedding of the pdf2qbo statement parser (src/ofx/domain.py).

Lines extracted from the PDF are modelled as Lean `String`s.  Python string
operations are modelled on the character lists of those strings (the inputs
are ASCII):
* `s.upper()` is `pyUpper` (`Char.toUpper` on every character),
* `needle in hay` is `pyIn` (substring search),
* `s.startswith(p)` is `pyStartsWith`,
* `s.replace(",", "")` is `removeCommas`,
* `s[:32]` is `pyTake32`.

Monetary amounts are modelled exactly, in cents (an `Int`); the binary
rounding of the Python `float` is not modelled, only the decimal value the
amount line denotes.  Fallible operations (`list.pop(0)` on an empty list,
`raise ValueError`, `datetime` range checks) are modelled with
`Except String`.
-/

namespace Pdf2Qbo

/-- A calendar date, modelling the (year, month, day) fields of a Python
`datetime` as used by the parser. -/
structure PDate where
  year : Int
  month : Nat
  day : Nat
deriving Repr, DecidableEq

/-- Python `chr.isdigit()` restricted to ASCII, also the regex class `\d`
on the ASCII inputs this parser sees. -/
def isDig (c : Char) : Bool := c.isDigit

/-- Uppercase a string, modelling `str.upper()` on ASCII input. -/
def pyUpper (s : String) : String := ⟨s.toList.map Char.toUpper⟩

/-- Substring test on character lists: does `needle` occur contiguously in
`hay`?  Models the Python `in` operator on strings. -/
def isSubstringL : List Char → List Char → Bool
  | needle, [] => needle.isEmpty
  | needle, c :: rest => needle.isPrefixOf (c :: rest) || isSubstringL needle rest

/-- Python `needle in hay` for strings. -/
def pyIn (needle hay : String) : Bool := isSubstringL needle.toList hay.toList

/-- Python `s.startswith(pre)`. -/
def pyStartsWith (s pre : String) : Bool := pre.toList.isPrefixOf s.toList

/-- Python `s.replace(",", "")`. -/
def removeCommas (s : String) : String := ⟨s.toList.filter (fun c => c ≠ ',')⟩

/-- Python `s[:32]` (slicing counts code points). -/
def pyTake32 (s : String) : String := ⟨s.toList.take 32⟩

/-- Python truthiness of an optional string: `None` and `""` are falsy. -/
def pyTruthy : Option String → Bool
  | none => false
  | some s => s != ""

/-- `pop(lines)` from src/ofx/domain.py: `lines.pop(0)`; raises on an empty
list. -/
def pop : List String → Except String (String × List String)
  | [] => .error "IndexError: pop from empty list"
  | l :: ls => .ok (l, ls)

/-- Numeric value of a list of ASCII digit characters. -/
def digitsToNat (l : List Char) : Nat := l.foldl (fun n c => n * 10 + (c.toNat - 48)) 0

/-! ### The amount regex `^\d+,?\d+\.\d{2}$`

The regex is translated piecewise, one matcher per suffix of the pattern;
alternatives (`,?` and the backtracking of `\d+`) become boolean
disjunctions. -/

/-- Matcher for the regex suffix `\.\d{2}$`. -/
def matchTail : List Char → Bool
  | c :: d1 :: d2 :: [] => c == '.' && isDig d1 && isDig d2
  | _ => false

/-- Matcher for `\d+` followed by a continuation `k`: one or more digits,
then the rest of the input must satisfy `k` (the `\d+` may stop after any
digit, as the backtracking regex engine would). -/
def dplus (k : List Char → Bool) : List Char → Bool
  | [] => false
  | c :: rest => isDig c && (k rest || dplus k rest)

/-- Matcher for the regex suffix `\d+\.\d{2}$`. -/
def matchD2 (l : List Char) : Bool := dplus matchTail l

/-- Matcher for the regex suffix `,?\d+\.\d{2}$`. -/
def matchAfterD1 (l : List Char) : Bool :=
  matchD2 l ||
    (match l with
     | c :: rest => c == ',' && matchD2 rest
     | [] => false)

/-- Matcher for the whole regex `^\d+,?\d+\.\d{2}$` on a character list. -/
def matchD1 (l : List Char) : Bool := dplus matchAfterD1 l

/-- `re.match("^\d+,?\d+\.\d{2}$", line)` from
`StatementTransactionBuilder.parse` (src/ofx/domain.py line 233), as a
boolean on the line. -/
def amountRegexMatch (line : String) : Bool := matchD1 line.toList

/-- `re.search("^(\d{2})/(\d{2})", line)` from `OfxBuilder.parse`
(src/ofx/domain.py line 99): the line starts with two digits, a slash and
two digits; returns the captured (month, day). -/
def dateSearch (line : String) : Option (Nat × Nat) :=
  match line.toList with
  | c1 :: c2 :: c3 :: c4 :: c5 :: _ =>
    if isDig c1 && isDig c2 && c3 == '/' && isDig c4 && isDig c5 then
      some ((c1.toNat - 48) * 10 + (c2.toNat - 48), (c4.toNat - 48) * 10 + (c5.toNat - 48))
    else none
  | _ => none

/-- `float(line.replace(',', ''))` on a line matched by the amount regex,
in exact cents.  The integer part is the digits before the dot, the
fraction the (exactly two) digits after it. -/
def floatCents (s : String) : Int :=
  let cs := s.toList.filter (fun c => c ≠ ',')
  let ip := cs.takeWhile (fun c => c ≠ '.')
  let fp := (cs.dropWhile (fun c => c ≠ '.')).drop 1
  ((digitsToNat ip * 100 + digitsToNat fp : Nat) : Int)

/-- The credit keyword list from src/ofx/domain.py line 201. -/
def creditTypes : List String := ["DEPOSIT", "CREDIT", "REFUND"]

/-- The debit keyword list from src/ofx/domain.py line 210. -/
def debitTypes : List String :=
  ["ELECTRONIC PMT", "PAY", "WITHDRAW", "DEBIT", "FEE", "CHARGE", "PMT", "OVERDRAFT PD"]

/-- Does the hint contain some credit keyword (case-insensitively)? -/
def hasCreditKeyword (hint : String) : Bool :=
  creditTypes.any (fun k => pyIn k (pyUpper hint))

/-- Does the hint contain some debit keyword (case-insensitively)? -/
def hasDebitKeyword (hint : String) : Bool :=
  debitTypes.any (fun k => pyIn k (pyUpper hint))

/-- The classification block of `StatementTransactionBuilder.parse`
(src/ofx/domain.py lines 200-212): the credit-keyword loop, the
`processing_checks` override, then the debit-keyword loop run only when the
type is still unset. -/
def classifyHint (trntype_hint : String) (processing_checks : Bool) : Option String :=
  let trntype : Option String :=
    creditTypes.foldl
      (fun acc credit_type =>
        if pyIn credit_type (pyUpper trntype_hint) then some "CREDIT" else acc) none
  let trntype := if processing_checks then some "DEBIT" else trntype
  match trntype with
  | some t => some t
  | none =>
    debitTypes.foldl
      (fun acc debit_type =>
        if pyIn debit_type (pyUpper trntype_hint) then some "DEBIT" else acc) none

/-- The fields of the `STMTTRN` object the claims are about: transaction
type, posted date, amount (exact cents) and (truncated) description.  The
derived `fitid` and the empty `memo` carry no information beyond these. -/
structure Stmttrn where
  trntype : String
  dtposted : PDate
  trnamt : Int
  name : String
deriving Repr, DecidableEq

/-- The description-accumulation `while` loop of
`StatementTransactionBuilder.parse` (src/ofx/domain.py lines 229-235):
append popped lines to the description until one matches the amount regex;
return the description, the matching line and the unconsumed lines. -/
def descriptionLoop (description line : String) (lines : List String) :
    Except String (String × String × List String) :=
  if amountRegexMatch line then .ok (description, line, lines)
  else
    match lines with
    | [] => .error "IndexError: pop from empty list"
    | l :: ls => descriptionLoop (description ++ " " ++ line) l ls

/-- `StatementTransactionBuilder.parse` (src/ofx/domain.py lines 191-251):
pop the type hint, classify it, defer unrecognized `Check #` entries by
eating two lines, otherwise accumulate the description, read the amount and
build the transaction (negated for debits, description truncated to 32). -/
def StatementTransactionBuilder.parse (lines : List String) (txn_date : PDate)
    (processing_checks : Bool) : Except String (Option Stmttrn × List String) :=
  match pop lines with
  | .error e => .error e
  | .ok (trntype_hint, lines) =>
    match classifyHint trntype_hint processing_checks with
    | none =>
      if pyStartsWith trntype_hint "Check #" then
        match pop lines with
        | .error e => .error e
        | .ok (_, lines) =>
          match pop lines with
          | .error e => .error e
          | .ok (_, lines) => .ok (none, lines)
      else
        .error ("Unable to determine transaction type for " ++ trntype_hint)
    | some trntype =>
      let description := if processing_checks then "Check # " ++ trntype_hint else ""
      match pop lines with
      | .error e => .error e
      | .ok (line, lines) =>
        match descriptionLoop description line lines with
        | .error e => .error e
        | .ok (description, line, lines) =>
          let description := if description = "" then trntype_hint else description
          let amount : Int := floatCents line
          let amount := if trntype = "DEBIT" then -amount else amount
          .ok (some { trntype := trntype, dtposted := txn_date, trnamt := amount,
                      name := pyTake32 description }, lines)

/-! ### The statement scanner (`OfxBuilder.parse`) -/

/-- The mutable state of an `OfxBuilder.parse` run: the builder fields from
`OfxBuilder.__init__` plus the local variables of `parse`
(`rollover_year`, `processing_checks`, `done`, `statement_transactions`).
`year` is `Option Int` because in Python it is `None` until the statement
period is parsed. -/
structure ScanState where
  statement_start_date : Option PDate
  statement_end_date : Option PDate
  account_number : Option String
  year : Option Int
  starting_statement_balance : Option String
  ending_statement_balance : Option String
  rollover_year : Bool
  processing_checks : Bool
  done : Bool
  txns : List Stmttrn
deriving Repr, DecidableEq

/-- The state at the top of `OfxBuilder.parse`: fresh builder fields and
the initial local variables. -/
def initState : ScanState :=
  { statement_start_date := none, statement_end_date := none, account_number := none,
    year := none, starting_statement_balance := none, ending_statement_balance := none,
    rollover_year := true, processing_checks := false, done := false, txns := [] }

/-- The state of a run whose statement period has already been established
(the `Statement Period:` header was processed with the given start and end
dates). -/
def establishedState (sd ed : PDate) : ScanState :=
  { initState with statement_start_date := some sd, statement_end_date := some ed,
                   year := some sd.year }

/-- Gregorian leap-year test, as `datetime` uses. -/
def isLeap (y : Int) : Bool := y % 4 == 0 && (y % 100 != 0 || y % 400 == 0)

/-- Number of days in a month, as `datetime` validates. -/
def daysInMonth (y : Int) (m : Nat) : Nat :=
  if m == 2 then (if isLeap y then 29 else 28)
  else if m == 4 || m == 6 || m == 9 || m == 11 then 30
  else 31

/-- `datetime(year=y, month=m, day=d)`: range-checks its arguments and
produces the date; out-of-range arguments raise `ValueError`. -/
def mkDatetime (y : Int) (m d : Nat) : Except String PDate :=
  if 1 ≤ y ∧ y ≤ 9999 then
    if 1 ≤ m ∧ m ≤ 12 then
      if 1 ≤ d ∧ d ≤ daysInMonth y m then .ok { year := y, month := m, day := d }
      else .error "ValueError: day is out of range for month"
    else .error "ValueError: month must be in 1..12"
  else .error "ValueError: year is out of range"

/-- Split a string on a separator character, Python `line.split("-")` for a
one-character separator. -/
def splitOnChar (c : Char) (s : String) : List String :=
  (s.toList.splitOn c).map (fun w => ⟨w⟩)

/-- Case-insensitive abbreviated month-name lookup, modelling the `%b`
directive of `strptime` (English locale). -/
def monthAbbrev (s : String) : Option Nat :=
  match (⟨s.toList.map Char.toLower⟩ : String) with
  | "jan" => some 1
  | "feb" => some 2
  | "mar" => some 3
  | "apr" => some 4
  | "may" => some 5
  | "jun" => some 6
  | "jul" => some 7
  | "aug" => some 8
  | "sep" => some 9
  | "oct" => some 10
  | "nov" => some 11
  | "dec" => some 12
  | _ => none

/-- `datetime.strptime(s, '%b %d %Y')`, modelled for the shapes this parser
meets: three whitespace-separated fields, an abbreviated English month name
(case-insensitive), a 1-2 digit day and an up-to-4-digit year, then the
`datetime` range checks. -/
def strptimeBdY (s : String) : Except String PDate :=
  match ((s.toList.splitOn ' ').filter (fun w => w ≠ [])).map
      (fun w => (⟨w⟩ : String)) with
  | [ms, ds, ys] =>
    match monthAbbrev ms with
    | none => .error "ValueError: time data does not match format"
    | some m =>
      if ds.toList.all isDig && decide (1 ≤ ds.length ∧ ds.length ≤ 2) &&
         ys.toList.all isDig && decide (1 ≤ ys.length ∧ ys.length ≤ 4) then
        mkDatetime (digitsToNat ys.toList) m (digitsToNat ds.toList)
      else .error "ValueError: time data does not match format"
  | _ => .error "ValueError: time data does not match format"

/-- `StatementPeriodBuilder.parse` (src/ofx/domain.py lines 151-167): pop
one line, split it on the hyphen into exactly two textual dates and parse
each with `strptime '%b %d %Y'` (the timezone localization does not change
the date fields and is not modelled). -/
def StatementPeriodBuilder.parse (lines : List String) :
    Except String (PDate × PDate × List String) :=
  match pop lines with
  | .error e => .error e
  | .ok (line, lines) =>
    match splitOnChar '-' line with
    | [a, b] =>
      match strptimeBdY a with
      | .error e => .error e
      | .ok start_time =>
        match strptimeBdY b with
        | .error e => .error e
        | .ok end_time => .ok (start_time, end_time, lines)
    | _ => .error "ValueError: wrong number of values to unpack"

/-- The `Checks Paid` / `Electronic Payments` flag updates at the top of
the `while` loop of `OfxBuilder.parse` (src/ofx/domain.py lines 65-71). -/
def OfxBuilder.flagUpdate (st : ScanState) (line : String) : ScanState :=
  if pyStartsWith line "Checks Paid" then { st with processing_checks := true }
  else if pyStartsWith line "Electronic Payments" then { st with processing_checks := false }
  else st

/-- The second `if` chain of the `while` loop of `OfxBuilder.parse`
(src/ofx/domain.py lines 72-117): the header handlers and, in the final
`elif`, the date-pattern transaction branch.  In the date branch the
condition `statement_start_date.month == 12 and month == 1 and
rollover_year` guards both the year increment and the clearing of the
rollover flag; the source computes `self.year += 1` once and then uses
`self.year`, here the incremented year appears in both places it is
used. -/
def OfxBuilder.dispatch (st : ScanState) (line : String) (lines : List String) :
    Except String (ScanState × List String) :=
  if pyStartsWith line "Statement Period:" then
    match StatementPeriodBuilder.parse lines with
    | .error e => .error e
    | .ok (start_time, end_time, lines) =>
      .ok ({ st with statement_start_date := some start_time,
                     statement_end_date := some end_time,
                     year := some start_time.year }, lines)
  else if pyStartsWith line "Primary Account #:" then
    match pop lines with
    | .error e => .error e
    | .ok (l, lines) => .ok ({ st with account_number := some l }, lines)
  else if pyStartsWith line "Statement Balance as of" then
    match pop lines with
    | .error e => .error e
    | .ok (l, lines) =>
      if pyTruthy st.starting_statement_balance then
        .ok ({ st with ending_statement_balance := some (removeCommas l) }, lines)
      else
        .ok ({ st with starting_statement_balance := some (removeCommas l) }, lines)
  else if pyStartsWith line "Beginning Balance" then
    match pop lines with
    | .error e => .error e
    | .ok (l, lines) => .ok ({ st with starting_statement_balance := some (removeCommas l) }, lines)
  else if pyStartsWith line "Ending Balance" then
    match pop lines with
    | .error e => .error e
    | .ok (l, lines) => .ok ({ st with ending_statement_balance := some (removeCommas l) }, lines)
  else if pyStartsWith line "DAILY BALANCE SUMMARY" || pyStartsWith line "INTEREST SUMMARY" then
    .ok ({ st with done := true }, lines)
  else
    match dateSearch line with
    | none => .ok (st, lines)
    | some (month, day) =>
      match st.statement_start_date with
      | none => .error "AttributeError: NoneType object has no attribute month"
      | some sd =>
        match st.year with
        | none => .error "TypeError: unsupported operand for NoneType year"
        | some y =>
          match mkDatetime (if sd.month == 12 && month == 1 && st.rollover_year then y + 1 else y)
              month day with
          | .error e => .error e
          | .ok txn_date =>
            match StatementTransactionBuilder.parse lines txn_date st.processing_checks with
            | .error e => .error e
            | .ok (ot, lines) =>
              .ok ({ st with
                      year := some (if sd.month == 12 && month == 1 && st.rollover_year
                                    then y + 1 else y),
                      rollover_year := if sd.month == 12 && month == 1 && st.rollover_year
                                       then false else st.rollover_year,
                      txns := match ot with
                        | some t => st.txns ++ [t]
                        | none => st.txns }, lines)

/-- One iteration of the `while` loop of `OfxBuilder.parse`
(src/ofx/domain.py lines 63-117), applied to the popped `line` and the
remaining buffer: the flag updates, then the header/date chain. -/
def OfxBuilder.step (st : ScanState) (line : String) (lines : List String) :
    Except String (ScanState × List String) :=
  OfxBuilder.dispatch (OfxBuilder.flagUpdate st line) line lines

/-- The `while len(lines) and not done` loop of `OfxBuilder.parse`, with a
fuel argument to make the recursion structural; `OfxBuilder.scan` supplies
sufficient fuel. -/
def OfxBuilder.parseLoop : Nat → ScanState → List String → Except String ScanState
  | _, st, [] => .ok st
  | 0, st, _ :: _ => .ok st
  | fuel + 1, st, line :: rest =>
    if st.done then .ok st
    else
      match OfxBuilder.step st line rest with
      | .error e => .error e
      | .ok (st2, rest2) => OfxBuilder.parseLoop fuel st2 rest2

/-- The scanning loop of `OfxBuilder.parse`, from a given state over a
given buffer.  Each iteration consumes at least the popped head, so
`lines.length` is always enough fuel. -/
def OfxBuilder.scan (st : ScanState) (lines : List String) : Except String ScanState :=
  OfxBuilder.parseLoop lines.length st lines

/-- The whole of `OfxBuilder.parse`: the scanning loop followed by the
document-assembly epilogue, which fails (a `TypeError` on the balance
print / `Decimal` call) when either balance was never captured.  The
construction of the `ofxtools` objects carries exactly the final state and
is not modelled further. -/
def OfxBuilder.parse (st : ScanState) (lines : List String) : Except String ScanState :=
  match OfxBuilder.scan st lines with
  | .error e => .error e
  | .ok st2 =>
    match st2.starting_statement_balance, st2.ending_statement_balance with
    | some _, some _ => .ok st2
    | _, _ => .error "TypeError: can only concatenate str (not NoneType) to str"

/-- A line that starts with none of the header phrases
`OfxBuilder.parse` recognizes. -/
def NoHeader (line : String) : Bool :=
  !(pyStartsWith line "Checks Paid") && !(pyStartsWith line "Electronic Payments") &&
  !(pyStartsWith line "Statement Period:") && !(pyStartsWith line "Primary Account #:") &&
  !(pyStartsWith line "Statement Balance as of") && !(pyStartsWith line "Beginning Balance") &&
  !(pyStartsWith line "Ending Balance") && !(pyStartsWith line "DAILY BALANCE SUMMARY") &&
  !(pyStartsWith line "INTEREST SUMMARY")

/-- A line the scanner ignores entirely: it triggers no header and does
not match the transaction date pattern. -/
def InertLine (line : String) : Bool := NoHeader line && (dateSearch line).isNone

/-- The transaction the reassembler returns on the sign-invariant witness
input `["DEPOSIT", "45.99"]`. -/
def depositTxn : Stmttrn :=
  { trntype := "CREDIT", dtposted := ⟨2021, 1, 5⟩, trnamt := 4599, name := "DEPOSIT" }

/-- The final scanner state of the December-statement witness run: the
year was incremented once and both January transactions are dated 2022. -/
def decemberScanResult : ScanState :=
  { establishedState ⟨2021, 12, 1⟩ ⟨2021, 12, 31⟩ with
    year := some 2022, rollover_year := false,
    txns := [{ trntype := "CREDIT", dtposted := ⟨2022, 1, 5⟩, trnamt := 4599,
               name := "DEPOSIT" },
             { trntype := "CREDIT", dtposted := ⟨2022, 1, 6⟩, trnamt := 1000,
               name := "DEPOSIT" }] }

/-! ## Helper lemmas -/

theorem matchTail_iff (l : List Char) :
    matchTail l = true ↔ ∃ d1 d2, l = ['.', d1, d2] ∧ isDig d1 = true ∧ isDig d2 = true := by
  cases l with
  | nil => simp [matchTail]
  | cons c t =>
    cases t with
    | nil => simp [matchTail]
    | cons d1 t2 =>
      cases t2 with
      | nil => simp [matchTail]
      | cons d2 t3 =>
        cases t3 with
        | nil =>
          simp only [matchTail, Bool.and_eq_true, beq_iff_eq]
          constructor
          · rintro ⟨⟨rfl, h1⟩, h2⟩
            exact ⟨d1, d2, rfl, h1, h2⟩
          · rintro ⟨e1, e2, heq, h1, h2⟩
            simp only [List.cons.injEq, and_true] at heq
            obtain ⟨rfl, rfl, rfl⟩ := heq
            exact ⟨⟨rfl, h1⟩, h2⟩
        | cons _ _ => simp [matchTail]

theorem dplus_iff (k : List Char → Bool) (l : List Char) :
    dplus k l = true ↔
      ∃ ds t, l = ds ++ t ∧ ds ≠ [] ∧ (∀ c ∈ ds, isDig c = true) ∧ k t = true := by
  induction l with
  | nil =>
    simp only [dplus]
    constructor
    · intro h; cases h
    · rintro ⟨ds, t, heq, hne, -, -⟩
      exact ((hne (List.append_eq_nil.mp heq.symm).1)).elim
  | cons c rest ih =>
    simp only [dplus, Bool.and_eq_true, Bool.or_eq_true]
    constructor
    · rintro ⟨hc, hk | hd⟩
      · exact ⟨[c], rest, rfl, by simp, by simp [hc], hk⟩
      · obtain ⟨ds, t, rfl, hne, hdig, hkt⟩ := ih.mp hd
        refine ⟨c :: ds, t, rfl, by simp, ?_, hkt⟩
        intro x hx
        rcases List.mem_cons.mp hx with rfl | hx
        · exact hc
        · exact hdig x hx
    · rintro ⟨ds, t, heq, hne, hdig, hkt⟩
      cases ds with
      | nil => exact absurd rfl hne
      | cons d ds2 =>
        simp only [List.cons_append, List.cons.injEq] at heq
        obtain ⟨rfl, rfl⟩ := heq
        refine ⟨hdig c (by simp), ?_⟩
        cases ds2 with
        | nil => exact Or.inl (by simpa using hkt)
        | cons e es =>
          refine Or.inr (ih.mpr ⟨e :: es, t, rfl, by simp, ?_, hkt⟩)
          intro x hx
          exact hdig x (by simp [List.mem_cons.mp hx])

theorem matchAfterD1_iff (l : List Char) :
    matchAfterD1 l = true ↔
      ∃ m b d1 d2, l = m ++ b ++ ['.', d1, d2] ∧ (m = [] ∨ m = [',']) ∧ b ≠ [] ∧
        (∀ c ∈ b, isDig c = true) ∧ isDig d1 = true ∧ isDig d2 = true := by
  constructor
  · intro h
    simp only [matchAfterD1, Bool.or_eq_true] at h
    rcases h with h | h
    · obtain ⟨b, t, rfl, hbne, hbdig, htail⟩ := (dplus_iff matchTail l).mp h
      obtain ⟨d1, d2, rfl, h1, h2⟩ := (matchTail_iff t).mp htail
      exact ⟨[], b, d1, d2, by simp, Or.inl rfl, hbne, hbdig, h1, h2⟩
    · cases l with
      | nil => simp at h
      | cons c rest =>
        simp only [Bool.and_eq_true, beq_iff_eq] at h
        obtain ⟨rfl, h⟩ := h
        obtain ⟨b, t, rfl, hbne, hbdig, htail⟩ := (dplus_iff matchTail rest).mp h
        obtain ⟨d1, d2, rfl, h1, h2⟩ := (matchTail_iff t).mp htail
        exact ⟨[','], b, d1, d2, by simp, Or.inr rfl, hbne, hbdig, h1, h2⟩
  · rintro ⟨m, b, d1, d2, rfl, hm, hbne, hbdig, h1, h2⟩
    simp only [matchAfterD1, Bool.or_eq_true]
    have hbd : matchD2 (b ++ ['.', d1, d2]) = true :=
      (dplus_iff matchTail (b ++ ['.', d1, d2])).mpr
        ⟨b, ['.', d1, d2], rfl, hbne, hbdig, (matchTail_iff _).mpr ⟨d1, d2, rfl, h1, h2⟩⟩
    rcases hm with rfl | rfl
    · exact Or.inl (by simpa using hbd)
    · exact Or.inr (by simp [hbd])

/-- Declarative reading of the amount regex `^\d+,?\d+\.\d{2}$`: the line
is a nonempty digit run, an optional single comma, another nonempty digit
run, a dot and exactly two digits. -/
theorem amountRegexMatch_iff (s : String) :
    amountRegexMatch s = true ↔
      ∃ a m b d1 d2,
        s.toList = a ++ m ++ b ++ ['.', d1, d2] ∧
        a ≠ [] ∧ (∀ c ∈ a, isDig c = true) ∧
        (m = [] ∨ m = [',']) ∧
        b ≠ [] ∧ (∀ c ∈ b, isDig c = true) ∧
        isDig d1 = true ∧ isDig d2 = true := by
  unfold amountRegexMatch matchD1
  rw [dplus_iff]
  constructor
  · rintro ⟨a, t, heq, hane, hadig, hafter⟩
    obtain ⟨m, b, d1, d2, rfl, hm, hbne, hbdig, h1, h2⟩ := (matchAfterD1_iff t).mp hafter
    exact ⟨a, m, b, d1, d2, by simpa [String.toList, List.append_assoc] using heq,
      hane, hadig, hm, hbne, hbdig, h1, h2⟩
  · rintro ⟨a, m, b, d1, d2, heq, hane, hadig, hm, hbne, hbdig, h1, h2⟩
    refine ⟨a, m ++ b ++ ['.', d1, d2],
      by simpa [String.toList, List.append_assoc] using heq, hane, hadig, ?_⟩
    exact (matchAfterD1_iff _).mpr ⟨m, b, d1, d2, rfl, hm, hbne, hbdig, h1, h2⟩

theorem foldl_classify_eq (p : String → Bool) (v : String) (L : List String) :
    ∀ acc : Option String,
      L.foldl (fun a k => if p k then some v else a) acc =
        if L.any p then some v else acc := by
  induction L with
  | nil => intro acc; simp
  | cons k L ih =>
    intro acc
    simp only [List.foldl_cons, List.any_cons, ih]
    rcases Bool.eq_false_or_eq_true (p k) with h | h <;>
      rcases Bool.eq_false_or_eq_true (L.any p) with h2 | h2 <;> simp [h, h2]

/-- Outside the checks section classification is: credit keywords first,
then debit keywords, by case-insensitive substring search. -/
theorem classifyHint_false_eq (hint : String) :
    classifyHint hint false =
      if hasCreditKeyword hint then some "CREDIT"
      else if hasDebitKeyword hint then some "DEBIT" else none := by
  unfold classifyHint hasCreditKeyword hasDebitKeyword
  rw [foldl_classify_eq, foldl_classify_eq]
  cases h : creditTypes.any (fun k => pyIn k (pyUpper hint)) <;> simp [h]

/-- Inside the checks section the classification is forced to DEBIT. -/
theorem classifyHint_true_eq (hint : String) : classifyHint hint true = some "DEBIT" := by
  unfold classifyHint
  rw [foldl_classify_eq]
  simp

/-- The classifier only ever produces CREDIT or DEBIT. -/
theorem classifyHint_cases {hint : String} {pc : Bool} {t : String}
    (h : classifyHint hint pc = some t) : t = "CREDIT" ∨ t = "DEBIT" := by
  cases pc
  · rw [classifyHint_false_eq] at h
    by_cases hc : hasCreditKeyword hint = true
    · rw [if_pos hc] at h
      exact Or.inl (Option.some.inj h).symm
    · rw [if_neg hc] at h
      by_cases hd : hasDebitKeyword hint = true
      · rw [if_pos hd] at h
        exact Or.inr (Option.some.inj h).symm
      · rw [if_neg hd] at h; cases h
  · rw [classifyHint_true_eq] at h
    exact Or.inr (Option.some.inj h).symm

theorem floatCents_nonneg (s : String) : 0 ≤ floatCents s := by
  unfold floatCents
  exact Int.natCast_nonneg _

theorem mkDatetime_ok {y : Int} {m d : Nat} {p : PDate}
    (h : mkDatetime y m d = .ok p) : p = { year := y, month := m, day := d } := by
  unfold mkDatetime at h
  split at h
  · split at h
    · split at h
      · exact (Except.ok.inj h).symm
      · cases h
    · cases h
  · cases h

theorem pop_suffix {lines rest : List String} {l : String}
    (h : pop lines = .ok (l, rest)) : rest <:+ lines := by
  cases lines with
  | nil => cases h
  | cons a as =>
    simp only [pop, Except.ok.injEq, Prod.mk.injEq] at h
    rw [← h.2]
    exact List.suffix_cons a as

theorem descriptionLoop_suffix :
    ∀ (lines : List String) (d line : String) {d2 l2 : String} {r : List String},
      descriptionLoop d line lines = .ok (d2, l2, r) → r <:+ lines := by
  intro lines
  induction lines with
  | nil =>
    intro d line d2 l2 r h
    unfold descriptionLoop at h
    split at h
    · simp only [Except.ok.injEq, Prod.mk.injEq] at h
      rw [← h.2.2]
    · simp at h
  | cons a as ih =>
    intro d line d2 l2 r h
    unfold descriptionLoop at h
    split at h
    · simp only [Except.ok.injEq, Prod.mk.injEq] at h
      rw [← h.2.2]
    · exact (ih _ _ h).trans (List.suffix_cons a as)

theorem StatementTransactionBuilder.parseTxn_suffix :
    ∀ {lines : List String} {td : PDate} {pc : Bool} {o : Option Stmttrn} {r : List String},
      StatementTransactionBuilder.parse lines td pc = .ok (o, r) → r <:+ lines := by
  intro lines td pc o r h
  unfold StatementTransactionBuilder.parse at h
  cases lines with
  | nil => simp [pop] at h
  | cons hint ls =>
    simp only [pop] at h
    split at h
    · -- classification failed
      split at h
      · -- deferred check: two pops
        split at h
        · simp at h
        · rename_i x ls1 heq1
          split at h
          · simp at h
          · rename_i y ls2 heq2
            simp only [Except.ok.injEq, Prod.mk.injEq] at h
            rw [← h.2]
            exact ((pop_suffix heq2).trans (pop_suffix heq1)).trans (List.suffix_cons hint ls)
      · simp at h
    · -- classification succeeded
      split at h
      · simp at h
      · rename_i x ls1 heq1
        split at h
        · simp at h
        · rename_i dd ll rr heq2
          simp only [Except.ok.injEq, Prod.mk.injEq] at h
          rw [← h.2]
          exact ((descriptionLoop_suffix ls1 _ _ heq2).trans (pop_suffix heq1)).trans
            (List.suffix_cons hint ls)

theorem StatementPeriodBuilder.parsePeriod_suffix :
    ∀ {lines : List String} {a b : PDate} {r : List String},
      StatementPeriodBuilder.parse lines = .ok (a, b, r) → r <:+ lines := by
  intro lines a b r h
  unfold StatementPeriodBuilder.parse at h
  cases lines with
  | nil => simp [pop] at h
  | cons x xs =>
    simp only [pop] at h
    split at h
    · split at h
      · simp at h
      · split at h
        · simp at h
        · simp only [Except.ok.injEq, Prod.mk.injEq] at h
          rw [← h.2.2]
          exact List.suffix_cons x xs
    · simp at h

theorem OfxBuilder.step_suffix :
    ∀ {st : ScanState} {line : String} {lines : List String} {st2 : ScanState}
      {rest2 : List String},
      OfxBuilder.step st line lines = .ok (st2, rest2) → rest2 <:+ lines := by
  intro st line lines st2 rest2 h
  unfold OfxBuilder.step OfxBuilder.dispatch at h
  split at h
  · -- Statement Period branch
    split at h
    · simp at h
    · rename_i s e ls heq
      simp only [Except.ok.injEq, Prod.mk.injEq] at h
      rw [← h.2]
      exact StatementPeriodBuilder.parsePeriod_suffix heq
  · split at h
    · -- Primary Account branch
      split at h
      · simp at h
      · rename_i l ls heq
        simp only [Except.ok.injEq, Prod.mk.injEq] at h
        rw [← h.2]
        exact pop_suffix heq
    · split at h
      · -- Statement Balance branch
        split at h
        · simp at h
        · rename_i l ls heq
          split at h <;>
            (simp only [Except.ok.injEq, Prod.mk.injEq] at h; rw [← h.2]; exact pop_suffix heq)
      · split at h
        · -- Beginning Balance branch
          split at h
          · simp at h
          · rename_i l ls heq
            simp only [Except.ok.injEq, Prod.mk.injEq] at h
            rw [← h.2]
            exact pop_suffix heq
        · split at h
          · -- Ending Balance branch
            split at h
            · simp at h
            · rename_i l ls heq
              simp only [Except.ok.injEq, Prod.mk.injEq] at h
              rw [← h.2]
              exact pop_suffix heq
          · split at h
            · -- terminator branch
              simp only [Except.ok.injEq, Prod.mk.injEq] at h
              rw [← h.2]
            · -- date / ignored branch
              split at h
              · -- no date match
                simp only [Except.ok.injEq, Prod.mk.injEq] at h
                rw [← h.2]
              · -- date match
                split at h
                · simp at h
                · split at h
                  · simp at h
                  · split at h
                    · simp at h
                    · split at h
                      · simp at h
                      · rename_i ot ls heq
                        simp only [Except.ok.injEq, Prod.mk.injEq] at h
                        rw [← h.2]
                        exact StatementTransactionBuilder.parseTxn_suffix heq

theorem OfxBuilder.parseLoop_sufficient :
    ∀ (n f1 f2 : Nat) (st : ScanState) (lines : List String),
      lines.length ≤ n → lines.length ≤ f1 → lines.length ≤ f2 →
      OfxBuilder.parseLoop f1 st lines = OfxBuilder.parseLoop f2 st lines := by
  intro n
  induction n with
  | zero =>
    intro f1 f2 st lines h0 _ _
    have hnil : lines = [] := List.eq_nil_of_length_eq_zero (Nat.le_zero.mp h0)
    subst hnil
    cases f1 <;> cases f2 <;> rfl
  | succ n ih =>
    intro f1 f2 st lines h0 h1 h2
    cases lines with
    | nil => cases f1 <;> cases f2 <;> rfl
    | cons a as =>
      cases f1 with
      | zero => simp at h1
      | succ g1 =>
        cases f2 with
        | zero => simp at h2
        | succ g2 =>
          simp only [List.length_cons] at h0 h1 h2
          simp only [OfxBuilder.parseLoop]
          split
          · rfl
          · split
            · rfl
            · rename_i st3 rest3 heq
              have hs := (OfxBuilder.step_suffix heq).length_le
              exact ih g1 g2 st3 rest3 (by omega) (by omega) (by omega)

theorem OfxBuilder.scan_nil (st : ScanState) : OfxBuilder.scan st [] = .ok st := rfl

theorem OfxBuilder.scan_done {st : ScanState} (lines : List String) (h : st.done = true) :
    OfxBuilder.scan st lines = .ok st := by
  cases lines with
  | nil => rfl
  | cons a as => simp [OfxBuilder.scan, OfxBuilder.parseLoop, h]

theorem OfxBuilder.scan_cons {st : ScanState} {line : String} {rest : List String}
    {st2 : ScanState} {rest2 : List String} (hdone : st.done = false)
    (hstep : OfxBuilder.step st line rest = .ok (st2, rest2)) :
    OfxBuilder.scan st (line :: rest) = OfxBuilder.scan st2 rest2 := by
  unfold OfxBuilder.scan
  simp only [List.length_cons, OfxBuilder.parseLoop, hdone, hstep, Bool.false_eq_true,
    if_false]
  exact OfxBuilder.parseLoop_sufficient rest.length rest.length rest2.length st2 rest2
    (OfxBuilder.step_suffix hstep).length_le (OfxBuilder.step_suffix hstep).length_le le_rfl

theorem OfxBuilder.scan_cons_error {st : ScanState} {line : String} {rest : List String}
    {e : String} (hdone : st.done = false)
    (hstep : OfxBuilder.step st line rest = .error e) :
    OfxBuilder.scan st (line :: rest) = .error e := by
  unfold OfxBuilder.scan
  simp [List.length_cons, OfxBuilder.parseLoop, hdone, hstep]

/-- A line that triggers no header and no date pattern leaves the whole
iteration state untouched. -/
theorem OfxBuilder.step_inert {st : ScanState} {line : String} (lines : List String)
    (hin : InertLine line = true) : OfxBuilder.step st line lines = .ok (st, lines) := by
  simp only [InertLine, NoHeader, Bool.and_eq_true, Bool.not_eq_true',
    Option.isNone_iff_eq_none, and_assoc] at hin
  obtain ⟨h1, h2, h3, h4, h5, h6, h7, h8, h9, h10⟩ := hin
  simp [OfxBuilder.step, OfxBuilder.flagUpdate, OfxBuilder.dispatch,
    h1, h2, h3, h4, h5, h6, h7, h8, h9, h10]

/-- Inert lines at the front of the buffer are skipped by the scanner. -/
theorem OfxBuilder.scan_inert_append :
    ∀ (mid : List String) {st : ScanState} (tail : List String),
      (∀ m ∈ mid, InertLine m = true) → st.done = false →
      OfxBuilder.scan st (mid ++ tail) = OfxBuilder.scan st tail := by
  intro mid
  induction mid with
  | nil => intro st tail _ _; rfl
  | cons m ms ih =>
    intro st tail hin hdone
    rw [List.cons_append,
      OfxBuilder.scan_cons hdone (OfxBuilder.step_inert (ms ++ tail) (hin m (by simp)))]
    exact ih tail (fun x hx => hin x (by simp [hx])) hdone

/-- Any state predicate preserved by single steps (on buffers free of
`Statement Period:` headers) is preserved by the whole loop. -/
theorem OfxBuilder.parseLoop_inv (P : ScanState → Prop)
    (hstep : ∀ st line rest st2 rest2,
      pyStartsWith line "Statement Period:" = false → P st →
      OfxBuilder.step st line rest = .ok (st2, rest2) → P st2) :
    ∀ (fuel : Nat) (st : ScanState) (lines : List String) (st2 : ScanState),
      P st → (∀ l ∈ lines, pyStartsWith l "Statement Period:" = false) →
      OfxBuilder.parseLoop fuel st lines = .ok st2 → P st2 := by
  intro fuel
  induction fuel with
  | zero =>
    intro st lines st2 hP _ h
    cases lines with
    | nil => exact (Except.ok.inj h) ▸ hP
    | cons a as => exact (Except.ok.inj h) ▸ hP
  | succ f ih =>
    intro st lines st2 hP hlines h
    cases lines with
    | nil => exact (Except.ok.inj h) ▸ hP
    | cons a as =>
      simp only [OfxBuilder.parseLoop] at h
      by_cases hd : st.done = true
      · rw [if_pos hd] at h
        exact (Except.ok.inj h) ▸ hP
      · rw [if_neg hd] at h
        split at h
        · cases h
        · rename_i st3 rest3 heq
          exact ih st3 rest3 st2
            (hstep st a as st3 rest3 (hlines a (by simp)) hP heq)
            (fun l hl => hlines l (List.mem_cons_of_mem a ((OfxBuilder.step_suffix heq).subset hl)))
            h

/-- Classification fails exactly when the hint contains no keyword. -/
theorem classifyHint_none {hint : String} (hc : hasCreditKeyword hint = false)
    (hd : hasDebitKeyword hint = false) : classifyHint hint false = none := by
  simp [classifyHint_false_eq, hc, hd]

/-- Every transaction the reassembler returns carries the date it was
given, a CREDIT or DEBIT type, and an amount whose sign agrees weakly with
the type. -/
theorem StatementTransactionBuilder.parse_some_spec :
    ∀ {lines : List String} {td : PDate} {pc : Bool} {t : Stmttrn} {r : List String},
      StatementTransactionBuilder.parse lines td pc = .ok (some t, r) →
      t.dtposted = td ∧ (t.trntype = "CREDIT" ∨ t.trntype = "DEBIT") ∧
      (t.trntype = "DEBIT" → t.trnamt ≤ 0) ∧ (t.trntype = "CREDIT" → 0 ≤ t.trnamt) := by
  intro lines td pc t r h
  unfold StatementTransactionBuilder.parse at h
  cases lines with
  | nil => simp [pop] at h
  | cons hint ls =>
    simp only [pop] at h
    split at h
    · split at h
      · split at h
        · simp at h
        · split at h
          · simp at h
          · simp at h
      · simp at h
    · rename_i tt hcl
      split at h
      · simp at h
      · rename_i x ls1 heq1
        split at h
        · simp at h
        · rename_i dd ll rr heq2
          simp only [Except.ok.injEq, Prod.mk.injEq, Option.some.injEq] at h
          obtain ⟨ht, hr⟩ := h
          subst ht
          rcases classifyHint_cases hcl with rfl | rfl
          · refine ⟨rfl, Or.inl rfl, ?_, ?_⟩
            · intro hcd; simp at hcd
            · intro _
              simpa using floatCents_nonneg ll
          · refine ⟨rfl, Or.inr rfl, ?_, ?_⟩
            · intro _
              simpa using neg_nonpos.mpr (floatCents_nonneg ll)
            · intro hcd; simp at hcd

/-- The flag update touches only `processing_checks`. -/
theorem OfxBuilder.flagUpdate_fields (st : ScanState) (line : String) :
    (OfxBuilder.flagUpdate st line).statement_start_date = st.statement_start_date ∧
    (OfxBuilder.flagUpdate st line).statement_end_date = st.statement_end_date ∧
    (OfxBuilder.flagUpdate st line).account_number = st.account_number ∧
    (OfxBuilder.flagUpdate st line).year = st.year ∧
    (OfxBuilder.flagUpdate st line).starting_statement_balance = st.starting_statement_balance ∧
    (OfxBuilder.flagUpdate st line).ending_statement_balance = st.ending_statement_balance ∧
    (OfxBuilder.flagUpdate st line).rollover_year = st.rollover_year ∧
    (OfxBuilder.flagUpdate st line).done = st.done ∧
    (OfxBuilder.flagUpdate st line).txns = st.txns := by
  unfold OfxBuilder.flagUpdate
  split
  · exact ⟨rfl, rfl, rfl, rfl, rfl, rfl, rfl, rfl, rfl⟩
  · split
    · exact ⟨rfl, rfl, rfl, rfl, rfl, rfl, rfl, rfl, rfl⟩
    · exact ⟨rfl, rfl, rfl, rfl, rfl, rfl, rfl, rfl, rfl⟩

/-- Case analysis of one dispatch on a non-`Statement Period:` line: either
the scan-relevant fields (period, year, rollover flag, transactions) are
untouched, or the line opened a transaction and the state evolves by the
year-rollover rule, appending at most one transaction dated by the parsed
month and day and the possibly incremented year. -/
theorem OfxBuilder.dispatch_cases {st : ScanState} {line : String} {lines : List String}
    {st2 : ScanState} {rest2 : List String}
    (hper : pyStartsWith line "Statement Period:" = false)
    (h : OfxBuilder.dispatch st line lines = .ok (st2, rest2)) :
    (st2.statement_start_date = st.statement_start_date ∧ st2.year = st.year ∧
     st2.rollover_year = st.rollover_year ∧ st2.txns = st.txns) ∨
    (∃ sd y month day,
      st.statement_start_date = some sd ∧ st.year = some y ∧
      st2.statement_start_date = some sd ∧
      st2.year = some (if sd.month == 12 && month == 1 && st.rollover_year then y + 1 else y) ∧
      st2.rollover_year =
        (if sd.month == 12 && month == 1 && st.rollover_year then false
         else st.rollover_year) ∧
      (st2.txns = st.txns ∨
        ∃ t, st2.txns = st.txns ++ [t] ∧
          t.dtposted = { year := (if sd.month == 12 && month == 1 && st.rollover_year
                                  then y + 1 else y),
                         month := month, day := day })) := by
  unfold OfxBuilder.dispatch at h
  rw [hper] at h
  simp only [Bool.false_eq_true, if_false] at h
  split at h
  · -- Primary Account
    split at h
    · cases h
    · simp only [Except.ok.injEq, Prod.mk.injEq] at h
      exact Or.inl (by rw [← h.1]; exact ⟨rfl, rfl, rfl, rfl⟩)
  · split at h
    · -- Statement Balance as of
      split at h
      · cases h
      · split at h <;>
          (simp only [Except.ok.injEq, Prod.mk.injEq] at h;
           exact Or.inl (by rw [← h.1]; exact ⟨rfl, rfl, rfl, rfl⟩))
    · split at h
      · -- Beginning Balance
        split at h
        · cases h
        · simp only [Except.ok.injEq, Prod.mk.injEq] at h
          exact Or.inl (by rw [← h.1]; exact ⟨rfl, rfl, rfl, rfl⟩)
      · split at h
        · -- Ending Balance
          split at h
          · cases h
          · simp only [Except.ok.injEq, Prod.mk.injEq] at h
            exact Or.inl (by rw [← h.1]; exact ⟨rfl, rfl, rfl, rfl⟩)
        · split at h
          · -- terminator
            simp only [Except.ok.injEq, Prod.mk.injEq] at h
            exact Or.inl (by rw [← h.1]; exact ⟨rfl, rfl, rfl, rfl⟩)
          · -- date / ignored
            split at h
            · simp only [Except.ok.injEq, Prod.mk.injEq] at h
              exact Or.inl (by rw [← h.1]; exact ⟨rfl, rfl, rfl, rfl⟩)
            · rename_i month day hds
              split at h
              · cases h
              · rename_i sd hsd
                split at h
                · cases h
                · rename_i y hy
                  split at h
                  · cases h
                  · rename_i txn_date hmk
                    split at h
                    · cases h
                    · rename_i ot ls hparse
                      simp only [Except.ok.injEq, Prod.mk.injEq] at h
                      refine Or.inr ⟨sd, y, month, day, hsd, hy, ?_, ?_, ?_, ?_⟩
                      · rw [← h.1]; exact hsd
                      · rw [← h.1]
                      · rw [← h.1]
                      · rw [← h.1]
                        cases ot with
                        | none => exact Or.inl rfl
                        | some t =>
                          refine Or.inr ⟨t, rfl, ?_⟩
                          have hd := (StatementTransactionBuilder.parse_some_spec hparse).1
                          rw [hd, mkDatetime_ok hmk]

/-- `OfxBuilder.dispatch_cases` lifted through the flag update to a whole
step. -/
theorem OfxBuilder.step_cases {st : ScanState} {line : String} {lines : List String}
    {st2 : ScanState} {rest2 : List String}
    (hper : pyStartsWith line "Statement Period:" = false)
    (h : OfxBuilder.step st line lines = .ok (st2, rest2)) :
    (st2.statement_start_date = st.statement_start_date ∧ st2.year = st.year ∧
     st2.rollover_year = st.rollover_year ∧ st2.txns = st.txns) ∨
    (∃ sd y month day,
      st.statement_start_date = some sd ∧ st.year = some y ∧
      st2.statement_start_date = some sd ∧
      st2.year = some (if sd.month == 12 && month == 1 && st.rollover_year then y + 1 else y) ∧
      st2.rollover_year =
        (if sd.month == 12 && month == 1 && st.rollover_year then false
         else st.rollover_year) ∧
      (st2.txns = st.txns ∨
        ∃ t, st2.txns = st.txns ++ [t] ∧
          t.dtposted = { year := (if sd.month == 12 && month == 1 && st.rollover_year
                                  then y + 1 else y),
                         month := month, day := day })) := by
  unfold OfxBuilder.step at h
  obtain ⟨f1, f2, f3, f4, f5, f6, f7, f8, f9⟩ := OfxBuilder.flagUpdate_fields st line
  rcases OfxBuilder.dispatch_cases hper h with hc | ⟨sd, y, month, day, c1, c2, c3, c4, c5, c6⟩
  · exact Or.inl (by rw [f1, f4, f7, f9] at hc; exact hc)
  · rw [f1] at c1
    rw [f4] at c2
    rw [f7] at c4 c5 c6
    rw [f9] at c6
    exact Or.inr ⟨sd, y, month, day, c1, c2, c3, c4, c5, c6⟩

/-- Processing a `Statement Balance as of` header pops the next line and
stores it (commas stripped) as the ending balance when a starting balance
is already truthy, as the starting balance otherwise. -/
theorem OfxBuilder.step_balance (st : ScanState) (b : String) (lines : List String) :
    OfxBuilder.step st "Statement Balance as of" (b :: lines) =
      .ok ((if pyTruthy st.starting_statement_balance
            then { st with ending_statement_balance := some (removeCommas b) }
            else { st with starting_statement_balance := some (removeCommas b) }), lines) := by
  have e1 : pyStartsWith "Statement Balance as of" "Checks Paid" = false := by decide
  have e2 : pyStartsWith "Statement Balance as of" "Electronic Payments" = false := by decide
  have e3 : pyStartsWith "Statement Balance as of" "Statement Period:" = false := by decide
  have e4 : pyStartsWith "Statement Balance as of" "Primary Account #:" = false := by decide
  have e5 : pyStartsWith "Statement Balance as of" "Statement Balance as of" = true := by decide
  unfold OfxBuilder.step OfxBuilder.flagUpdate OfxBuilder.dispatch
  simp only [e1, e2, e3, e4, e5, Bool.false_eq_true, if_false, if_true, pop]
  split <;> rfl

theorem OfxBuilder.step_balance_first {st : ScanState} (b : String) (lines : List String)
    (h : pyTruthy st.starting_statement_balance = false) :
    OfxBuilder.step st "Statement Balance as of" (b :: lines) =
      .ok ({ st with starting_statement_balance := some (removeCommas b) }, lines) := by
  rw [OfxBuilder.step_balance, h]
  simp

theorem OfxBuilder.step_balance_second {st : ScanState} (b : String) (lines : List String)
    (h : pyTruthy st.starting_statement_balance = true) :
    OfxBuilder.step st "Statement Balance as of" (b :: lines) =
      .ok ({ st with ending_statement_balance := some (removeCommas b) }, lines) := by
  rw [OfxBuilder.step_balance, h]
  simp

/-- A step on a line that opens a transaction (no header matches and the
date pattern fires) resolves the year by the rollover rule, builds the
date, and hands the buffer to the transaction builder. -/
theorem OfxBuilder.step_date {st : ScanState} {dl : String} {lines : List String}
    {m d : Nat} {sd : PDate} {y : Int}
    (hnh : NoHeader dl = true) (hds : dateSearch dl = some (m, d))
    (hsd : st.statement_start_date = some sd) (hy : st.year = some y) :
    OfxBuilder.step st dl lines =
      match mkDatetime (if sd.month == 12 && m == 1 && st.rollover_year then y + 1 else y)
          m d with
      | .error e => .error e
      | .ok txn_date =>
        match StatementTransactionBuilder.parse lines txn_date st.processing_checks with
        | .error e => .error e
        | .ok (ot, lines2) =>
          .ok ({ st with
                  year := some (if sd.month == 12 && m == 1 && st.rollover_year then y + 1
                                else y),
                  rollover_year := if sd.month == 12 && m == 1 && st.rollover_year then false
                                   else st.rollover_year,
                  txns := match ot with
                    | some t => st.txns ++ [t]
                    | none => st.txns }, lines2) := by
  simp only [NoHeader, Bool.and_eq_true, Bool.not_eq_true', and_assoc] at hnh
  obtain ⟨h1, h2, h3, h4, h5, h6, h7, h8, h9⟩ := hnh
  unfold OfxBuilder.step OfxBuilder.flagUpdate OfxBuilder.dispatch
  simp only [h1, h2, h3, h4, h5, h6, h7, h8, h9, hds, hsd, hy, Bool.false_eq_true, if_false,
    Bool.or_self]

/-! ## Claim theorems

Amounts are stated in exact cents: `-4599` is the amount -45.99. -/

/-- C1 (counterexample): on the claimed input the reassembler does produce
exactly one DEBIT transaction of amount -45.99, but its stored description
is " AMAZON.COM SEATTLE WA" — the continuation lines each prefixed by a
space — not "DEBIT CARD PURCHASE AMAZON.COM SEATTLE WA" and not that
string truncated to 32 characters: the hint line is used as description
only when no continuation lines exist. -/
theorem claim_c1_counterexample :
    OfxBuilder.scan (establishedState ⟨2021, 3, 1⟩ ⟨2021, 3, 31⟩)
        ["03/14", "DEBIT CARD PURCHASE", "AMAZON.COM", "SEATTLE WA", "45.99"] =
      .ok { establishedState ⟨2021, 3, 1⟩ ⟨2021, 3, 31⟩ with
            txns := [{ trntype := "DEBIT", dtposted := ⟨2021, 3, 14⟩, trnamt := -4599,
                       name := " AMAZON.COM SEATTLE WA" }] } ∧
    " AMAZON.COM SEATTLE WA" ≠ "DEBIT CARD PURCHASE AMAZON.COM SEATTLE WA" ∧
    " AMAZON.COM SEATTLE WA" ≠ pyTake32 "DEBIT CARD PURCHASE AMAZON.COM SEATTLE WA" :=
  ⟨rfl, by decide, by decide⟩

/-- C1 (amended): for the input line sequence `["03/14", "DEBIT CARD
PURCHASE", "AMAZON.COM", "SEATTLE WA", "45.99"]` with a valid statement
period already established, the reassembler produces exactly one DEBIT
transaction with amount -45.99 and description " AMAZON.COM SEATTLE WA":
the continuation lines joined, each preceded by a space; the type-hint
line contributes only the classification, not the description, whenever at
least one continuation line precedes the amount. -/
theorem claim_c1_multiline_description :
    ∃ st2, OfxBuilder.scan (establishedState ⟨2021, 3, 1⟩ ⟨2021, 3, 31⟩)
        ["03/14", "DEBIT CARD PURCHASE", "AMAZON.COM", "SEATTLE WA", "45.99"] = .ok st2 ∧
      st2.txns = [{ trntype := "DEBIT", dtposted := ⟨2021, 3, 14⟩, trnamt := -4599,
                    name := " AMAZON.COM SEATTLE WA" }] :=
  ⟨_, rfl, rfl⟩

/-- C2 (counterexample): the line "00.00" matches the amount regex, so the
input `["01/05", "DEPOSIT", "00.00"]` reaches the builder and produces a
CREDIT transaction of amount 0 — its amount is ≤ 0 while its type is not
DEBIT, and its type is CREDIT while its amount is not > 0, refuting the
strict sign iff. -/
theorem claim_c2_counterexample :
    (∃ st2, OfxBuilder.scan (establishedState ⟨2021, 1, 1⟩ ⟨2021, 1, 31⟩)
        ["01/05", "DEPOSIT", "00.00"] = .ok st2 ∧
      st2.txns = [{ trntype := "CREDIT", dtposted := ⟨2021, 1, 5⟩, trnamt := 0,
                    name := "DEPOSIT" }]) ∧
    ¬(("CREDIT" = "DEBIT") ↔ ((0 : Int) ≤ 0)) ∧
    ¬(("CREDIT" = "CREDIT") ↔ ((0 : Int) > 0)) :=
  ⟨⟨_, rfl, rfl⟩, by decide, by decide⟩

/-- C2 (amended): every transaction the reassembler returns is typed
CREDIT or DEBIT, a DEBIT transaction has amount ≤ 0 and a CREDIT
transaction has amount ≥ 0; the iff form fails only at amount 0, which a
line of zeros ("00.00") makes reachable for either type. -/
theorem claim_c2_sign_invariant (lines : List String) (td : PDate) (pc : Bool) (t : Stmttrn)
    (r : List String) (h : StatementTransactionBuilder.parse lines td pc = .ok (some t, r)) :
    (t.trntype = "CREDIT" ∨ t.trntype = "DEBIT") ∧
    (t.trntype = "DEBIT" → t.trnamt ≤ 0) ∧ (t.trntype = "CREDIT" → 0 ≤ t.trnamt) :=
  (StatementTransactionBuilder.parse_some_spec h).2

theorem claim_c2_sign_invariant_witness :
    (depositTxn.trntype = "CREDIT" ∨ depositTxn.trntype = "DEBIT") ∧
    (depositTxn.trntype = "DEBIT" → depositTxn.trnamt ≤ 0) ∧
    (depositTxn.trntype = "CREDIT" → 0 ≤ depositTxn.trnamt) :=
  claim_c2_sign_invariant ["DEPOSIT", "45.99"] ⟨2021, 1, 5⟩ false depositTxn [] rfl

/-- C4 (counterexample): "5.00" has the claimed shape (one or more digits,
a decimal point, two fraction digits) but does not match the code's amount
regex `^\d+,?\d+\.\d{2}$`, so the description loop does not stop there: it
appends " 5.00" to the description and takes the next matching line as the
amount. -/
theorem claim_c4_counterexample :
    amountRegexMatch "5.00" = false ∧
    descriptionLoop "" "5.00" ["120.00"] = .ok (" 5.00", "120.00", []) ∧
    StatementTransactionBuilder.parse ["WITHDRAWAL", "5.00", "120.00"] ⟨2021, 1, 5⟩ false =
      .ok (some { trntype := "DEBIT", dtposted := ⟨2021, 1, 5⟩, trnamt := -12000,
                  name := " 5.00" }, []) :=
  ⟨rfl, rfl, rfl⟩

/-- C4 (amended): a popped line terminates the description and is taken as
the amount iff it matches `^\d+,?\d+\.\d{2}$`: at least two digits before
the decimal point — a nonempty digit run, at most one comma, another
nonempty digit run — then a decimal point and exactly two fraction digits.
Lines not of that shape, including single-digit amounts such as "5.00",
are appended to the description. -/
theorem claim_c4_amount_pattern :
    (∀ s : String, amountRegexMatch s = true ↔
      ∃ a m b d1 d2,
        s.toList = a ++ m ++ b ++ ['.', d1, d2] ∧
        a ≠ [] ∧ (∀ c ∈ a, isDig c = true) ∧
        (m = [] ∨ m = [',']) ∧
        b ≠ [] ∧ (∀ c ∈ b, isDig c = true) ∧
        isDig d1 = true ∧ isDig d2 = true) ∧
    (∀ (ds line : String) (rest : List String), amountRegexMatch line = true →
      descriptionLoop ds line rest = .ok (ds, line, rest)) ∧
    (∀ (ds line l : String) (rest : List String), amountRegexMatch line = false →
      descriptionLoop ds line (l :: rest) = descriptionLoop (ds ++ " " ++ line) l rest) ∧
    amountRegexMatch "5.00" = false ∧ amountRegexMatch "45.99" = true ∧
    amountRegexMatch "1,234.56" = true := by
  refine ⟨amountRegexMatch_iff, ?_, ?_, rfl, rfl, rfl⟩
  · intro ds line rest h
    unfold descriptionLoop
    rw [if_pos h]
  · intro ds line l rest h
    conv_lhs => unfold descriptionLoop
    rw [if_neg (by simp [h])]

theorem claim_c4_amount_pattern_witness :
    amountRegexMatch "45.99" = true ∧
    descriptionLoop "" "45.99" ["x"] = .ok ("", "45.99", ["x"]) ∧
    amountRegexMatch "AMAZON.COM" = false ∧
    descriptionLoop "" "AMAZON.COM" ["45.99"] =
      descriptionLoop ("" ++ " " ++ "AMAZON.COM") "45.99" [] :=
  ⟨by decide, claim_c4_amount_pattern.2.1 "" "45.99" ["x"] (by decide),
   by decide, claim_c4_amount_pattern.2.2.1 "" "AMAZON.COM" "45.99" [] (by decide)⟩

/-- C5: on the deferred-check input, the first "01/05" entry produces no
transaction — the hint "Check # 103" and exactly the two following lines
are consumed and scanning continues — and after the "Checks Paid" header
the second entry produces exactly one DEBIT transaction of amount -120.00
with description "Check # 103". -/
theorem claim_c5_deferred_check :
    StatementTransactionBuilder.parse
        ["Check # 103", "some bank note", "120.00", "Checks Paid", "01/05", "103", "120.00"]
        ⟨2021, 1, 5⟩ false =
      .ok (none, ["Checks Paid", "01/05", "103", "120.00"]) ∧
    OfxBuilder.scan (establishedState ⟨2021, 1, 1⟩ ⟨2021, 1, 31⟩)
        ["01/05", "Check # 103", "some bank note", "120.00", "Checks Paid", "01/05", "103",
          "120.00"] =
      .ok { establishedState ⟨2021, 1, 1⟩ ⟨2021, 1, 31⟩ with
            processing_checks := true,
            txns := [{ trntype := "DEBIT", dtposted := ⟨2021, 1, 5⟩, trnamt := -12000,
                       name := "Check # 103" }] } :=
  ⟨rfl, rfl⟩

/-- C8: outside the checks section, classification is by case-insensitive
substring search with the credit keywords checked before the debit
keywords; a hint containing keywords of both kinds is classified CREDIT. -/
theorem claim_c8_credit_precedence :
    (∀ hint : String, classifyHint hint false =
      (if hasCreditKeyword hint then some "CREDIT"
       else if hasDebitKeyword hint then some "DEBIT" else none)) ∧
    (∀ hint : String, hasCreditKeyword hint = true → hasDebitKeyword hint = true →
      classifyHint hint false = some "CREDIT") := by
  refine ⟨classifyHint_false_eq, ?_⟩
  intro hint hc _
  rw [classifyHint_false_eq, hc]
  simp

theorem claim_c8_credit_precedence_witness :
    hasCreditKeyword "DIRECT DEPOSIT FEE" = true ∧
    hasDebitKeyword "DIRECT DEPOSIT FEE" = true ∧
    classifyHint "DIRECT DEPOSIT FEE" false = some "CREDIT" :=
  ⟨by decide, by decide,
   claim_c8_credit_precedence.2 "DIRECT DEPOSIT FEE" (by decide) (by decide)⟩

/-- C6: in a run whose buffer holds exactly two "Statement Balance as of"
headers (separated by content lines the scanner ignores), the starting
balance is set from the line after the first occurrence with commas
stripped, the ending balance from the line after the second occurrence,
and scanning continues on the remaining buffer from exactly that state. -/
theorem claim_c6_balance_order (st0 : ScanState) (b1 b2 : String) (mid rest : List String)
    (hdone : st0.done = false) (hstart : st0.starting_statement_balance = none)
    (hmid : ∀ m ∈ mid, InertLine m = true) (hb1 : removeCommas b1 ≠ "") :
    OfxBuilder.scan st0
        ("Statement Balance as of" :: b1 ::
          (mid ++ "Statement Balance as of" :: b2 :: rest)) =
      OfxBuilder.scan
        { st0 with starting_statement_balance := some (removeCommas b1),
                   ending_statement_balance := some (removeCommas b2) } rest := by
  have h1 : pyTruthy st0.starting_statement_balance = false := by rw [hstart]; rfl
  have h2 : pyTruthy (some (removeCommas b1)) = true := by
    show (removeCommas b1 != "") = true
    simpa using hb1
  refine (OfxBuilder.scan_cons hdone (OfxBuilder.step_balance_first b1 _ h1)).trans ?_
  refine (OfxBuilder.scan_inert_append mid _ hmid (by exact hdone)).trans ?_
  exact OfxBuilder.scan_cons (by exact hdone) (OfxBuilder.step_balance_second b2 rest (by exact h2))

theorem claim_c6_balance_order_witness :
    OfxBuilder.scan initState
        ("Statement Balance as of" :: "1,234.56" ::
          (["OTHER CONTENT"] ++ "Statement Balance as of" :: "2,345.67" :: [])) =
      OfxBuilder.scan
        { initState with starting_statement_balance := some (removeCommas "1,234.56"),
                         ending_statement_balance := some (removeCommas "2,345.67") } [] ∧
    removeCommas "1,234.56" = "1234.56" ∧ removeCommas "2,345.67" = "2345.67" :=
  ⟨claim_c6_balance_order initState "1,234.56" "2,345.67" ["OTHER CONTENT"] [] rfl rfl
      (by decide) (by decide),
   by decide, by decide⟩

/-- C9: when a third "Statement Balance as of" header occurs after both
balances are set, no error is raised: the ending balance is overwritten
with the line following the third occurrence (last occurrence wins) and
the starting balance keeps the value captured at the first occurrence. -/
theorem claim_c9_third_balance (st0 : ScanState) (b1 b2 b3 : String)
    (mid1 mid2 rest : List String)
    (hdone : st0.done = false) (hstart : st0.starting_statement_balance = none)
    (hmid1 : ∀ m ∈ mid1, InertLine m = true) (hmid2 : ∀ m ∈ mid2, InertLine m = true)
    (hb1 : removeCommas b1 ≠ "") :
    OfxBuilder.scan st0
        ("Statement Balance as of" :: b1 ::
          (mid1 ++ "Statement Balance as of" :: b2 ::
            (mid2 ++ "Statement Balance as of" :: b3 :: rest))) =
      OfxBuilder.scan
        { st0 with starting_statement_balance := some (removeCommas b1),
                   ending_statement_balance := some (removeCommas b3) } rest := by
  have h1 : pyTruthy st0.starting_statement_balance = false := by rw [hstart]; rfl
  have h2 : pyTruthy (some (removeCommas b1)) = true := by
    show (removeCommas b1 != "") = true
    simpa using hb1
  refine (OfxBuilder.scan_cons hdone (OfxBuilder.step_balance_first b1 _ h1)).trans ?_
  refine (OfxBuilder.scan_inert_append mid1 _ hmid1 (by exact hdone)).trans ?_
  refine (OfxBuilder.scan_cons (by exact hdone) (OfxBuilder.step_balance_second b2 _ (by exact h2))).trans ?_
  refine (OfxBuilder.scan_inert_append mid2 _ hmid2 (by exact hdone)).trans ?_
  exact OfxBuilder.scan_cons (by exact hdone) (OfxBuilder.step_balance_second b3 rest (by exact h2))

theorem claim_c9_third_balance_witness :
    OfxBuilder.scan initState
        ("Statement Balance as of" :: "1,234.56" ::
          (["A"] ++ "Statement Balance as of" :: "2,345.67" ::
            (["B"] ++ "Statement Balance as of" :: "9,999.99" :: []))) =
      OfxBuilder.scan
        { initState with starting_statement_balance := some (removeCommas "1,234.56"),
                         ending_statement_balance := some (removeCommas "9,999.99") } [] ∧
    removeCommas "9,999.99" = "9999.99" :=
  ⟨claim_c9_third_balance initState "1,234.56" "2,345.67" "9,999.99" ["A"] ["B"] [] rfl rfl
      (by decide) (by decide) (by decide),
   by decide⟩

/-- C7: outside the checks section, a type-hint line that contains no
credit keyword and no debit keyword and does not begin with "Check #"
makes the reassembler raise the classification `ValueError`; a run whose
scanner reaches such a transaction aborts with that error — neither the
scanning loop nor the whole `OfxBuilder.parse` produces any result. -/
theorem claim_c7_classification_error :
    (∀ (hint : String) (lines : List String) (td : PDate),
      hasCreditKeyword hint = false → hasDebitKeyword hint = false →
      pyStartsWith hint "Check #" = false →
      StatementTransactionBuilder.parse (hint :: lines) td false =
        .error ("Unable to determine transaction type for " ++ hint)) ∧
    (∀ (st : ScanState) (dl hint : String) (rest : List String) (m d : Nat) (sd : PDate)
       (y : Int) (td : PDate),
      st.done = false → st.processing_checks = false →
      NoHeader dl = true → dateSearch dl = some (m, d) →
      st.statement_start_date = some sd → st.year = some y →
      mkDatetime (if sd.month == 12 && m == 1 && st.rollover_year then y + 1 else y) m d =
        .ok td →
      hasCreditKeyword hint = false → hasDebitKeyword hint = false →
      pyStartsWith hint "Check #" = false →
      OfxBuilder.scan st (dl :: hint :: rest) =
        .error ("Unable to determine transaction type for " ++ hint) ∧
      OfxBuilder.parse st (dl :: hint :: rest) =
        .error ("Unable to determine transaction type for " ++ hint)) := by
  have part1 : ∀ (hint : String) (lines : List String) (td : PDate),
      hasCreditKeyword hint = false → hasDebitKeyword hint = false →
      pyStartsWith hint "Check #" = false →
      StatementTransactionBuilder.parse (hint :: lines) td false =
        .error ("Unable to determine transaction type for " ++ hint) := by
    intro hint lines td hc hd hchk
    unfold StatementTransactionBuilder.parse
    simp only [pop, classifyHint_none hc hd, hchk, Bool.false_eq_true, if_false]
  refine ⟨part1, ?_⟩
  intro st dl hint rest m d sd y td hdone hpc hnh hds hsd hy hmk hc hd hchk
  have hstep : OfxBuilder.step st dl (hint :: rest) =
      .error ("Unable to determine transaction type for " ++ hint) := by
    rw [OfxBuilder.step_date hnh hds hsd hy, hmk]
    simp only [hpc, part1 hint rest td hc hd hchk]
  have hscan := OfxBuilder.scan_cons_error hdone hstep
  refine ⟨hscan, ?_⟩
  unfold OfxBuilder.parse
  rw [hscan]

theorem claim_c7_classification_error_witness :
    OfxBuilder.scan (establishedState ⟨2021, 5, 1⟩ ⟨2021, 5, 31⟩)
        ["05/01", "MYSTERY ENTRY", "10.00"] =
      .error ("Unable to determine transaction type for " ++ "MYSTERY ENTRY") ∧
    OfxBuilder.parse (establishedState ⟨2021, 5, 1⟩ ⟨2021, 5, 31⟩)
        ["05/01", "MYSTERY ENTRY", "10.00"] =
      .error ("Unable to determine transaction type for " ++ "MYSTERY ENTRY") :=
  claim_c7_classification_error.2 (establishedState ⟨2021, 5, 1⟩ ⟨2021, 5, 31⟩)
    "05/01" "MYSTERY ENTRY" ["10.00"] 5 1 ⟨2021, 5, 1⟩ 2021 ⟨2021, 5, 1⟩
    rfl rfl (by decide) (by decide) rfl rfl rfl (by decide) (by decide) (by decide)

/-- C10: when the reassembler defers a check entry (no keyword matches,
the hint begins with "Check #", outside the checks section) it consumes
exactly the two following lines whatever their content, returns no
transaction, and the scanner step leaves balances, period, account number
and the accumulated transactions unchanged. -/
theorem claim_c10_deferral_frame :
    (∀ (hint l1 l2 : String) (rest : List String) (td : PDate),
      hasCreditKeyword hint = false → hasDebitKeyword hint = false →
      pyStartsWith hint "Check #" = true →
      StatementTransactionBuilder.parse (hint :: l1 :: l2 :: rest) td false =
        .ok (none, rest)) ∧
    (∀ (st : ScanState) (dl hint l1 l2 : String) (rest : List String) (m d : Nat)
       (sd : PDate) (y : Int) (td : PDate),
      st.processing_checks = false →
      NoHeader dl = true → dateSearch dl = some (m, d) →
      st.statement_start_date = some sd → st.year = some y →
      mkDatetime (if sd.month == 12 && m == 1 && st.rollover_year then y + 1 else y) m d =
        .ok td →
      hasCreditKeyword hint = false → hasDebitKeyword hint = false →
      pyStartsWith hint "Check #" = true →
      ∃ st2, OfxBuilder.step st dl (hint :: l1 :: l2 :: rest) = .ok (st2, rest) ∧
        st2.starting_statement_balance = st.starting_statement_balance ∧
        st2.ending_statement_balance = st.ending_statement_balance ∧
        st2.statement_start_date = st.statement_start_date ∧
        st2.statement_end_date = st.statement_end_date ∧
        st2.account_number = st.account_number ∧
        st2.txns = st.txns) := by
  have part1 : ∀ (hint l1 l2 : String) (rest : List String) (td : PDate),
      hasCreditKeyword hint = false → hasDebitKeyword hint = false →
      pyStartsWith hint "Check #" = true →
      StatementTransactionBuilder.parse (hint :: l1 :: l2 :: rest) td false =
        .ok (none, rest) := by
    intro hint l1 l2 rest td hc hd hchk
    unfold StatementTransactionBuilder.parse
    simp only [pop, classifyHint_none hc hd, hchk, if_true]
  refine ⟨part1, ?_⟩
  intro st dl hint l1 l2 rest m d sd y td hpc hnh hds hsd hy hmk hc hd hchk
  have hstep : OfxBuilder.step st dl (hint :: l1 :: l2 :: rest) =
      .ok ({ st with
              year := some (if sd.month == 12 && m == 1 && st.rollover_year then y + 1
                            else y),
              rollover_year := if sd.month == 12 && m == 1 && st.rollover_year then false
                               else st.rollover_year }, rest) := by
    rw [OfxBuilder.step_date hnh hds hsd hy, hmk, hpc]
    simp only [part1 hint l1 l2 rest td hc hd hchk]
  exact ⟨_, hstep, rfl, rfl, rfl, rfl, rfl, rfl⟩

theorem claim_c10_deferral_frame_witness :
    ∃ st2, OfxBuilder.step (establishedState ⟨2021, 1, 1⟩ ⟨2021, 1, 31⟩) "01/05"
        ("Check # 103" :: "ARBITRARY" :: "ALSO ARBITRARY" :: ["tail"]) = .ok (st2, ["tail"]) ∧
      st2.starting_statement_balance =
        (establishedState ⟨2021, 1, 1⟩ ⟨2021, 1, 31⟩).starting_statement_balance ∧
      st2.ending_statement_balance =
        (establishedState ⟨2021, 1, 1⟩ ⟨2021, 1, 31⟩).ending_statement_balance ∧
      st2.statement_start_date =
        (establishedState ⟨2021, 1, 1⟩ ⟨2021, 1, 31⟩).statement_start_date ∧
      st2.statement_end_date =
        (establishedState ⟨2021, 1, 1⟩ ⟨2021, 1, 31⟩).statement_end_date ∧
      st2.account_number = (establishedState ⟨2021, 1, 1⟩ ⟨2021, 1, 31⟩).account_number ∧
      st2.txns = (establishedState ⟨2021, 1, 1⟩ ⟨2021, 1, 31⟩).txns :=
  claim_c10_deferral_frame.2 (establishedState ⟨2021, 1, 1⟩ ⟨2021, 1, 31⟩)
    "01/05" "Check # 103" "ARBITRARY" "ALSO ARBITRARY" ["tail"] 1 5 ⟨2021, 1, 1⟩ 2021
    ⟨2021, 1, 5⟩ rfl (by decide) (by decide) rfl rfl rfl (by decide) (by decide) (by decide)

/-- C3: over a whole scan of a buffer with no further `Statement Period:`
header, a statement whose start month is not December never increments the
year — the running year stays the start year and every produced
transaction is dated in the start year — while a December-start statement
gives every January-dated transaction the year start_year + 1, and the
increment fires at most once: the running year is either still the start
year (rollover still armed) or exactly start_year + 1 (rollover spent),
never more, however many January date lines follow. -/
theorem claim_c3_year_rollover :
    ∀ (st : ScanState) (sd : PDate) (lines : List String) (st2 : ScanState),
      st.statement_start_date = some sd → st.year = some sd.year →
      st.rollover_year = true → st.txns = [] →
      (∀ l ∈ lines, pyStartsWith l "Statement Period:" = false) →
      OfxBuilder.scan st lines = .ok st2 →
      (sd.month ≠ 12 →
        st2.year = some sd.year ∧ ∀ t ∈ st2.txns, t.dtposted.year = sd.year) ∧
      (sd.month = 12 →
        ((st2.year = some sd.year ∧ st2.rollover_year = true) ∨
         (st2.year = some (sd.year + 1) ∧ st2.rollover_year = false)) ∧
        ∀ t ∈ st2.txns, t.dtposted.month = 1 → t.dtposted.year = sd.year + 1) := by
  intro st sd lines st2 hsd hy hro htx hlines hscan
  constructor
  · -- non-December start: the year never moves
    intro hm
    have hstep : ∀ s line rest s2 rest2,
        pyStartsWith line "Statement Period:" = false →
        (s.statement_start_date = some sd ∧ s.year = some sd.year ∧
          ∀ t ∈ s.txns, t.dtposted.year = sd.year) →
        OfxBuilder.step s line rest = .ok (s2, rest2) →
        (s2.statement_start_date = some sd ∧ s2.year = some sd.year ∧
          ∀ t ∈ s2.txns, t.dtposted.year = sd.year) := by
      intro s line rest s2 rest2 hper hP hst
      obtain ⟨p1, p2, p3⟩ := hP
      rcases OfxBuilder.step_cases hper hst with ⟨e1, e2, e3, e4⟩ |
        ⟨sd', y', month, day, c1, c2, c3, c4, c5, c6⟩
      · exact ⟨e1.trans p1, e2.trans p2, by rw [e4]; exact p3⟩
      · rw [p1] at c1
        obtain rfl : sd = sd' := Option.some.inj c1
        rw [p2] at c2
        obtain rfl : sd.year = y' := Option.some.inj c2
        have hc : (sd.month == 12) = false := beq_eq_false_iff_ne.mpr hm
        have hcond : (sd.month == 12 && month == 1 && s.rollover_year) = false := by
          rw [hc]; simp
        simp only [hcond, Bool.false_eq_true, if_false] at c4 c6
        refine ⟨c3, c4, ?_⟩
        rcases c6 with h6 | ⟨t, h6, hdt⟩
        · rw [h6]; exact p3
        · rw [h6]
          intro t' ht'
          rcases List.mem_append.mp ht' with h | h
          · exact p3 t' h
          · obtain rfl : t' = t := List.mem_singleton.mp h
            rw [hdt]
    have key := OfxBuilder.parseLoop_inv _ hstep lines.length st lines st2
      ⟨hsd, hy, by simp [htx]⟩ hlines hscan
    exact ⟨key.2.1, key.2.2⟩
  · -- December start: at most one increment, January transactions get Y+1
    intro hm
    have hstep : ∀ s line rest s2 rest2,
        pyStartsWith line "Statement Period:" = false →
        (s.statement_start_date = some sd ∧
          ((s.year = some sd.year ∧ s.rollover_year = true) ∨
           (s.year = some (sd.year + 1) ∧ s.rollover_year = false)) ∧
          ∀ t ∈ s.txns, t.dtposted.month = 1 → t.dtposted.year = sd.year + 1) →
        OfxBuilder.step s line rest = .ok (s2, rest2) →
        (s2.statement_start_date = some sd ∧
          ((s2.year = some sd.year ∧ s2.rollover_year = true) ∨
           (s2.year = some (sd.year + 1) ∧ s2.rollover_year = false)) ∧
          ∀ t ∈ s2.txns, t.dtposted.month = 1 → t.dtposted.year = sd.year + 1) := by
      intro s line rest s2 rest2 hper hP hst
      obtain ⟨p1, p2, p3⟩ := hP
      rcases OfxBuilder.step_cases hper hst with ⟨e1, e2, e3, e4⟩ |
        ⟨sd', y', month, day, c1, c2, c3, c4, c5, c6⟩
      · refine ⟨e1.trans p1, ?_, by rw [e4]; exact p3⟩
        rcases p2 with ⟨q1, q2⟩ | ⟨q1, q2⟩
        · exact Or.inl ⟨e2.trans q1, e3.trans q2⟩
        · exact Or.inr ⟨e2.trans q1, e3.trans q2⟩
      · rw [p1] at c1
        obtain rfl : sd = sd' := Option.some.inj c1
        have hb12 : (sd.month == 12) = true := by simp [hm]
        rcases p2 with ⟨q1, q2⟩ | ⟨q1, q2⟩
        · -- rollover still armed
          rw [q1] at c2
          obtain rfl : sd.year = y' := Option.some.inj c2
          rcases Bool.eq_false_or_eq_true (month == 1) with hmon | hmon
          · -- January line: the increment fires exactly here
            have hcond : (sd.month == 12 && month == 1 && s.rollover_year) = true := by
              rw [hb12, hmon, q2]; rfl
            simp only [hcond, if_true] at c4 c5 c6
            refine ⟨c3, Or.inr ⟨c4, c5⟩, ?_⟩
            rcases c6 with h6 | ⟨t, h6, hdt⟩
            · rw [h6]; exact p3
            · rw [h6]
              intro t' ht' hmont
              rcases List.mem_append.mp ht' with h | h
              · exact p3 t' h hmont
              · obtain rfl : t' = t := List.mem_singleton.mp h
                rw [hdt]
          · -- not a January line: nothing fires
            have hcond : (sd.month == 12 && month == 1 && s.rollover_year) = false := by
              rw [hmon]; simp
            simp only [hcond, Bool.false_eq_true, if_false] at c4 c5 c6
            rw [q2] at c5
            refine ⟨c3, Or.inl ⟨c4, c5⟩, ?_⟩
            rcases c6 with h6 | ⟨t, h6, hdt⟩
            · rw [h6]; exact p3
            · rw [h6]
              intro t' ht' hmont
              rcases List.mem_append.mp ht' with h | h
              · exact p3 t' h hmont
              · obtain rfl : t' = t := List.mem_singleton.mp h
                rw [hdt] at hmont
                have hm1 : month = 1 := hmont
                exact absurd hm1 (beq_eq_false_iff_ne.mp hmon)
        · -- rollover already spent: the year stays start_year + 1
          rw [q1] at c2
          obtain rfl : sd.year + 1 = y' := Option.some.inj c2
          have hcond : (sd.month == 12 && month == 1 && s.rollover_year) = false := by
            rw [q2]; simp
          simp only [hcond, Bool.false_eq_true, if_false] at c4 c5 c6
          rw [q2] at c5
          refine ⟨c3, Or.inr ⟨c4, c5⟩, ?_⟩
          rcases c6 with h6 | ⟨t, h6, hdt⟩
          · rw [h6]; exact p3
          · rw [h6]
            intro t' ht' hmont
            rcases List.mem_append.mp ht' with h | h
            · exact p3 t' h hmont
            · obtain rfl : t' = t := List.mem_singleton.mp h
              rw [hdt]
    have key := OfxBuilder.parseLoop_inv _ hstep lines.length st lines st2
      ⟨hsd, Or.inl ⟨hy, hro⟩, by simp [htx]⟩ hlines hscan
    exact ⟨key.2.1, key.2.2⟩

theorem claim_c3_year_rollover_witness :
    ((⟨2021, 12, 1⟩ : PDate).month ≠ 12 →
      decemberScanResult.year = some (⟨2021, 12, 1⟩ : PDate).year ∧
      ∀ t ∈ decemberScanResult.txns, t.dtposted.year = (⟨2021, 12, 1⟩ : PDate).year) ∧
    ((⟨2021, 12, 1⟩ : PDate).month = 12 →
      ((decemberScanResult.year = some (⟨2021, 12, 1⟩ : PDate).year ∧
        decemberScanResult.rollover_year = true) ∨
       (decemberScanResult.year = some ((⟨2021, 12, 1⟩ : PDate).year + 1) ∧
        decemberScanResult.rollover_year = false)) ∧
      ∀ t ∈ decemberScanResult.txns, t.dtposted.month = 1 →
        t.dtposted.year = (⟨2021, 12, 1⟩ : PDate).year + 1) :=
  claim_c3_year_rollover (establishedState ⟨2021, 12, 1⟩ ⟨2021, 12, 31⟩) ⟨2021, 12, 1⟩
    ["01/05", "DEPOSIT", "45.99", "01/06", "DEPOSIT", "10.00"] decemberScanResult
    rfl rfl rfl rfl (by decide) rfl

end Pdf2Qbo
